import Mathlib

/-!
Verification development for the M-KOPA fraud-investigation engine
(`src/core/engine.py`, `src/rebuild/engine.py`, `src/config/settings.py`).

The Python code is shallowly embedded: JSON values exchanged with the
classifier and stored in the cache become the inductive `Json`; Python
dicts of JSON values become association lists (`Row`); code that can
raise becomes `Except String`; the warehouse and the external classifier
become explicit oracle records, so every engine function is a total,
executable Lean function of its inputs and its oracle.  Wall-clock
fields (`time_ms`, elapsed timestamps) are not modelled; timestamps that
are merely stored are passed in as explicit `now` arguments.
-/

/-- JSON values as produced by `json.loads`.  Numbers are modelled as
decimal fixed-point values `m / 10^e` (with `e = 0` playing the role of
a Python `int`), which covers every literal the engine manipulates. -/
inductive Json where
  | null : Json
  | bool (b : Bool) : Json
  | num (m : Int) (e : Nat) : Json
  | str (s : String) : Json
  | arr (xs : List Json) : Json
  | obj (kvs : List (String × Json)) : Json
deriving Repr

/-- A Python dict holding JSON values (e.g. a parsed classifier reply,
a warehouse row rendered by `dict(zip(columns, row))`). -/
abbrev Row := List (String × Json)

/-- `dict.get(k)`: the value stored under `k`, if any. -/
def rget (r : Row) (k : String) : Option Json :=
  (r.find? (fun kv => kv.1 == k)).map (fun kv => kv.2)

/-- `dict.get(k, d)`: lookup with a default for a missing key. -/
def rgetD (r : Row) (k : String) (d : Json) : Json :=
  (rget r k).getD d

/-- `d[k] = v` on a Python dict: overwrite in place or append. -/
def setKey (r : Row) (k : String) (v : Json) : Row :=
  if (r.find? (fun kv => kv.1 == k)).isSome then
    r.map (fun kv => if kv.1 == k then (k, v) else kv)
  else
    r ++ [(k, v)]

/-- Python truthiness of a value obtained from `dict.get` (where a
missing key and a JSON `null` both read back as `None`). -/
def pyTruthy : Option Json → Bool
  | none => false
  | some Json.null => false
  | some (Json.bool b) => b
  | some (Json.num m _) => m != 0
  | some (Json.str s) => s != ""
  | some (Json.arr xs) => !xs.isEmpty
  | some (Json.obj kvs) => !kvs.isEmpty

/-- Python `a or b` on two `dict.get` results. -/
def pyOr (a b : Option Json) : Option Json :=
  if pyTruthy a then a else b

/-- Python `str()` of a loaded JSON scalar, as far as the engine needs
it (it is only ever applied before stripping non-digits). -/
def pyStr : Json → String
  | Json.null => "None"
  | Json.bool true => "True"
  | Json.bool false => "False"
  | Json.num m 0 => toString m
  | Json.num m (e + 1) => toString m ++ "e-" ++ toString (e + 1)
  | Json.str s => s
  | Json.arr _ => "[...]"
  | Json.obj _ => "dict"

/-- Keep only ASCII digits: `re.sub(r'\D', '', s)`. -/
def stripNonDigits (s : String) : String :=
  String.mk (s.data.filter Char.isDigit)

/-- `s.startswith('0')` on a digit string. -/
def startsWith0 (s : String) : Bool :=
  match s.data with
  | c :: _ => c == '0'
  | [] => false

/-- `standardize_phone_number` from `src/core/engine.py` lines 42-49:
strip non-digits, prepend a single `0` to a 9-digit number missing it,
and accept only 9- or 10-digit results. -/
def standardize_phone_number (phone : String) : Option String :=
  if phone = "" then none
  else
    let p := stripNonDigits phone
    let p := if p.length = 9 ∧ startsWith0 p = false then "0" ++ p else p
    if p.length = 10 ∨ p.length = 9 then some p else none

/-- The opening-brace character. -/
def lbrace : Char := Char.ofNat 123

/-- The closing-brace character. -/
def rbrace : Char := Char.ofNat 125

/-- Escape one character inside a JSON string literal, as
`json.dumps` does for the characters the engine ever stores. -/
def jsonEscapeChar (c : Char) : List Char :=
  if c = '\\' then ['\\', '\\']
  else if c = '"' then ['\\', '"']
  else if c = '\n' then ['\\', 'n']
  else if c = '\t' then ['\\', 't']
  else if c = '\r' then ['\\', 'r']
  else [c]

/-- Serialize a string to a quoted JSON string literal. -/
def dumpsStr (s : String) : String :=
  String.mk ('"' :: (s.data.flatMap jsonEscapeChar) ++ ['"'])

/-- Render the decimal number `m / 10^e` the way `json.dumps` prints an
int (`e = 0`) or a float (`e > 0`), e.g. `(85, 2) ↦ "0.85"`. -/
def dumpsNum (m : Int) (e : Nat) : String :=
  if e = 0 then toString m
  else
    let ds := toString m.natAbs
    let ds := if ds.length ≤ e then String.mk (List.replicate (e + 1 - ds.length) '0') ++ ds else ds
    let intPart := ds.take (ds.length - e)
    let fracPart := ds.drop (ds.length - e)
    (if m < 0 then "-" else "") ++ intPart ++ "." ++ fracPart

mutual

/-- `json.dumps` with the default separators, on the modelled values. -/
def dumpsJson : Json → String
  | Json.null => "null"
  | Json.bool true => "true"
  | Json.bool false => "false"
  | Json.num m e => dumpsNum m e
  | Json.str s => dumpsStr s
  | Json.arr xs => "[" ++ dumpsArr xs ++ "]"
  | Json.obj kvs => String.singleton lbrace ++ dumpsObj kvs ++ String.singleton rbrace

/-- Comma-separated serialization of array elements. -/
def dumpsArr : List Json → String
  | [] => ""
  | [x] => dumpsJson x
  | x :: y :: rest => dumpsJson x ++ ", " ++ dumpsArr (y :: rest)

/-- Comma-separated serialization of object members. -/
def dumpsObj : List (String × Json) → String
  | [] => ""
  | [(k, v)] => dumpsStr k ++ ": " ++ dumpsJson v
  | (k, v) :: y :: rest => dumpsStr k ++ ": " ++ dumpsJson v ++ ", " ++ dumpsObj (y :: rest)

end

/-- JSON insignificant whitespace. -/
def isWsChar (c : Char) : Bool :=
  c == ' ' || c == '\t' || c == '\n' || c == '\r'

/-- Drop leading JSON whitespace. -/
def skipWs (s : List Char) : List Char := s.dropWhile isWsChar

/-- Parse the body of a JSON string literal (the opening quote already
consumed), decoding the escapes `dumpsStr` can emit. -/
def parseStrChars : Nat → List Char → Option (List Char × List Char)
  | 0, _ => none
  | _, [] => none
  | fuel + 1, c :: cs =>
    if c = '"' then some ([], cs)
    else if c = '\\' then
      match cs with
      | [] => none
      | e :: cs2 =>
        let dec : Option Char :=
          if e = '"' then some '"'
          else if e = '\\' then some '\\'
          else if e = '/' then some '/'
          else if e = 'n' then some '\n'
          else if e = 't' then some '\t'
          else if e = 'r' then some '\r'
          else none
        match dec with
        | none => none
        | some d =>
          match parseStrChars fuel cs2 with
          | some (rest, rem) => some (d :: rest, rem)
          | none => none
    else
      match parseStrChars fuel cs with
      | some (rest, rem) => some (c :: rest, rem)
      | none => none

/-- Numeric value of a run of ASCII digits. -/
def digitsToNat (ds : List Char) : Nat :=
  ds.foldl (fun a c => a * 10 + (c.toNat - 48)) 0

/-- Parse a JSON number (integer or decimal fraction). -/
def parseNum (s : List Char) : Option (Json × List Char) :=
  let neg : Bool := match s with | c :: _ => c = '-' | [] => false
  let s1 := if neg then s.drop 1 else s
  let ds := s1.takeWhile Char.isDigit
  let s2 := s1.dropWhile Char.isDigit
  if ds.isEmpty then none
  else
    match s2 with
    | '.' :: s3 =>
      let fs := s3.takeWhile Char.isDigit
      let s4 := s3.dropWhile Char.isDigit
      if fs.isEmpty then none
      else
        let mNat := digitsToNat (ds ++ fs)
        some (Json.num (if neg then -(mNat : Int) else (mNat : Int)) fs.length, s4)
    | _ =>
      some (Json.num (if neg then -(digitsToNat ds : Int) else (digitsToNat ds : Int)) 0, s2)

mutual

/-- Fueled recursive-descent parse of one JSON value. -/
def parseValAux : Nat → List Char → Option (Json × List Char)
  | 0, _ => none
  | fuel + 1, s0 =>
    let s := skipWs s0
    match s with
    | [] => none
    | c :: cs =>
      if c = '"' then
        match parseStrChars (cs.length + 1) cs with
        | some (body, rem) => some (Json.str (String.mk body), rem)
        | none => none
      else if c = '[' then
        match skipWs cs with
        | ']' :: rem => some (Json.arr [], rem)
        | _ =>
          match parseArrItems fuel cs with
          | some (vs, rem) => some (Json.arr vs, rem)
          | none => none
      else if c = lbrace then
        match skipWs cs with
        | d :: rem =>
          if d = rbrace then some (Json.obj [], rem)
          else
            match parseObjItems fuel cs with
            | some (kvs, rem2) => some (Json.obj kvs, rem2)
            | none => none
        | [] => none
      else if ['t', 'r', 'u', 'e'].isPrefixOf s then some (Json.bool true, s.drop 4)
      else if ['f', 'a', 'l', 's', 'e'].isPrefixOf s then some (Json.bool false, s.drop 5)
      else if ['n', 'u', 'l', 'l'].isPrefixOf s then some (Json.null, s.drop 4)
      else parseNum s

/-- Parse `value (, value)* ]` inside an array. -/
def parseArrItems : Nat → List Char → Option (List Json × List Char)
  | 0, _ => none
  | fuel + 1, s =>
    match parseValAux fuel s with
    | none => none
    | some (v, rest) =>
      match skipWs rest with
      | ',' :: rest2 =>
        match parseArrItems fuel rest2 with
        | some (vs, rem) => some (v :: vs, rem)
        | none => none
      | ']' :: rest2 => some ([v], rest2)
      | _ => none

/-- Parse `"key": value (, "key": value)* closing-brace` inside an object. -/
def parseObjItems : Nat → List Char → Option (List (String × Json) × List Char)
  | 0, _ => none
  | fuel + 1, s =>
    match skipWs s with
    | [] => none
    | c :: cs =>
      if c = '"' then
        match parseStrChars (cs.length + 1) cs with
        | none => none
        | some (kcs, rest) =>
          match skipWs rest with
          | ':' :: rest2 =>
            match parseValAux fuel rest2 with
            | none => none
            | some (v, rest3) =>
              match skipWs rest3 with
              | ',' :: rest4 =>
                match parseObjItems fuel rest4 with
                | some (kvs, rem) => some ((String.mk kcs, v) :: kvs, rem)
                | none => none
              | d :: rest4 => if d = rbrace then some ([(String.mk kcs, v)], rest4) else none
              | [] => none
          | _ => none
      else none

end

/-- `json.loads`: parse a complete JSON document, rejecting trailing
garbage (a failed parse models the `JSONDecodeError` raise). -/
def parseJson (s : String) : Option Json :=
  match parseValAux (s.length + 1) s.data with
  | some (v, rest) => if (skipWs rest).isEmpty then some v else none
  | none => none


/-!
Configuration tables from `src/config/settings.py`.
-/

/-- `CLAUDE_MODEL` from `src/config/settings.py`. -/
def CLAUDE_MODEL : String := "claude-sonnet-4-5-20250929"

/-- `THRESHOLDS['confidence_high']` (0.70): above it, "Awaiting field
Investigation". -/
def THRESHOLDS_confidence_high : Rat := 70 / 100

/-- `THRESHOLDS['confidence_medium']` (0.55): between it and the high
cut, "Re-investigate"; below it, no action. -/
def THRESHOLDS_confidence_medium : Rat := 55 / 100

/-- `ALLEGATION_TO_SUBREASON` mapping from `src/config/settings.py`. -/
def ALLEGATION_TO_SUBREASON : List (String × String) :=
  [("Cash Loan Fraud", "Cash Payments"),
   ("Cash Payments", "Cash Payments"),
   ("Identity Theft", "Identity theft"),
   ("Hacking & Tampering", "Hacking and tampering"),
   ("Hardware theft (Lost & Found)", "Hardware theft"),
   ("Hardware theft DSR", "Hardware theft"),
   ("Resale", "Resale"),
   ("Stolen stock", "Hardware theft")]

/-- `REASON_STANDARDIZATION` mapping from `src/config/settings.py`. -/
def REASON_STANDARDIZATION : List (String × String) :=
  [("Cash Loan Fraud", "Cash Loan Fraud"),
   ("Cash loan fraud", "Cash Loan Fraud"),
   ("Customer Fraud", "Customer Fraud"),
   ("Customer fraud", "Customer Fraud")]

/-- `BASIC_FIELD_UPDATES` from `src/config/settings.py`. -/
def BASIC_FIELD_UPDATES : Row :=
  [("group_id", Json.num 27000198468 0),
   ("department_id", Json.num 27000279665 0),
   ("category", Json.str "Fraud Team"),
   ("responder_id", Json.num 27002721925 0)]

/-- The route labels of `INVESTIGATION_ROUTES` in
`src/config/settings.py` (the known route enumeration). -/
def INVESTIGATION_ROUTES : List String :=
  ["device_tampering_standard", "account_takeover_full",
   "cash_loan_comprehensive", "payment_fraud_basic",
   "external_scam_quick", "quick_lookup"]

/-- `table.get(key, default)` on a string-to-string settings map. -/
def tableGetD (t : List (String × String)) (k : String) (d : String) : String :=
  ((t.find? (fun kv => kv.1 == k)).map (fun kv => kv.2)).getD d

/-!
The post-processing rule engine: `determine_reason_subreason` and
`process_investigation_output` from `src/core/engine.py`.
-/

/-- `determine_reason_subreason` from `src/core/engine.py` lines
83-99.  Both arguments are the raw values read from the classifier
reply (possibly absent or JSON null). -/
def determine_reason_subreason (primary_allegation suspect_type : Option Json) :
    String × String :=
  let reason :=
    match suspect_type with
    | some (Json.str s) =>
      if s = "DSR" then "DSR fraud"
      else if s = "External to M-kopa" then "External/Noncustomer fraud"
      else if s = "Customer" then "Customer Fraud"
      else if s = "Other Internal staff" ∨ s = "Internal Sales staff" then "DSR fraud"
      else "Suspected Fraud"
    | _ => "Suspected Fraud"
  let subreason :=
    match primary_allegation with
    | some (Json.str s) => tableGetD ALLEGATION_TO_SUBREASON s "Cash Payments"
    | _ => "Cash Payments"
  let reason := tableGetD REASON_STANDARDIZATION reason reason
  (reason, subreason)

/-- The `updates.custom_fields` dict built by
`process_investigation_output` (presentation-only `case_details`
narrative omitted: it is a timestamped free-text appendix). -/
structure CustomFields where
  fraud_status : Option Json
  case_outcome : Option Json
  primary_allegation : Option Json
  reason_for_interaction : String
  subreason_for_interaction : String
  loan_account_number : Option Json
  suspect_type : Option Json
  suspect_name : Option Json
  suspect_number : Option Json

/-- The `metadata` dict of the investigation result (timestamp passed
in; `model_used` is the hard-coded literal from the source). -/
structure InvMetadata where
  investigation_timestamp : String
  model_used : String
  ticket_id : String
  fraud_type_detected : Json

/-- The verdict returned by `process_investigation_output`
(`analysis` pass-through lists and the `case_details` narrative are
presentation-only and omitted). -/
structure InvestigationResult where
  fraud_status : Option Json
  confidence : Json
  basic_fields : Row
  custom_fields : CustomFields
  public_comment : Json
  metadata : InvMetadata

/-- `process_investigation_output` from `src/core/engine.py` lines
1017-1117: read the classifier fields, standardize the suspect phone,
derive reason/subreason, and assemble the Freshservice update. -/
def process_investigation_output (claude_result : Row) (account_number : Option Json)
    (ticket_id : String) (fraud_type : Json) (now : String) : InvestigationResult :=
  let fraud_status := rget claude_result "fraud_status"
  let confidence := rgetD claude_result "confidence" (Json.num 0 1)
  let primary_allegation := rget claude_result "primary_allegation"
  let suspect_type := rget claude_result "suspect_type"
  let suspect_name := rget claude_result "suspect_name"
  let suspect_number := rget claude_result "suspect_number"
  let case_outcome := rget claude_result "case_outcome"
  let public_note := rgetD claude_result "public_note" (Json.str "")
  let suspect_number :=
    if pyTruthy suspect_number then
      match standardize_phone_number (pyStr (suspect_number.getD Json.null)) with
      | some s => some (Json.str s)
      | none => none
    else suspect_number
  let rs := determine_reason_subreason primary_allegation suspect_type
  { fraud_status := fraud_status,
    confidence := confidence,
    basic_fields := BASIC_FIELD_UPDATES,
    custom_fields :=
      { fraud_status :=
          match fraud_status with
          | some (Json.str s) => if s = "Likely fraud" then some (Json.str s) else none
          | _ => none,
        case_outcome := case_outcome,
        primary_allegation := primary_allegation,
        reason_for_interaction := rs.1,
        subreason_for_interaction := rs.2,
        loan_account_number := account_number,
        suspect_type := suspect_type,
        suspect_name := suspect_name,
        suspect_number := suspect_number },
    public_comment := public_note,
    metadata :=
      { investigation_timestamp := now,
        model_used := "claude-sonnet-4-20250514",
        ticket_id := ticket_id,
        fraud_type_detected := fraud_type } }

/-!
The investigation cache from `src/rebuild/engine.py`: a SQLite table
`investigations(ticket_id TEXT PRIMARY KEY, date, fraud_status,
confidence, data JSON)`, modelled as a list of rows.  `INSERT OR
REPLACE` deletes any row that collides on the primary key and inserts
the new one.
-/

/-- One row of the `investigations` cache table. -/
structure CacheRow where
  ticket_id : String
  date : String
  fraud_status : Option Json
  confidence : Option Json
  data : String

/-- `save_investigation` from `src/rebuild/engine.py` lines 42-55:
`INSERT OR REPLACE INTO investigations VALUES (?, ?, ?, ?, ?)` with the
payload serialized by `json.dumps(result, default=str)`. -/
def save_investigation (tbl : List CacheRow) (ticket_id : String) (result : Row)
    (now : String) : List CacheRow :=
  tbl.filter (fun row => !(row.ticket_id == ticket_id)) ++
    [{ ticket_id := ticket_id,
       date := now,
       fraud_status := rget result "fraud_status",
       confidence := rget result "confidence",
       data := dumpsJson (Json.obj result) }]

/-- `get_investigation` from `src/rebuild/engine.py` lines 58-66:
`SELECT data FROM investigations WHERE ticket_id = ?`, then
`json.loads(row[0]) if row else None`. -/
def get_investigation (tbl : List CacheRow) (ticket_id : String) : Option Json :=
  match tbl.find? (fun row => row.ticket_id == ticket_id) with
  | some row => parseJson row.data
  | none => none

/-!
Phase 2 (`phase2_query_planning`, `src/core/engine.py` lines 147-212):
clean Markdown fencing off the classifier reply, `json.loads` it (an
unparsable reply raises), and attach `phase2_metadata`.  The reply text
itself is an input: the Claude call is the external boundary.
-/

/-- Drop leading whitespace characters (the `\s*` tail of the fence
patterns). -/
def dropWsChars (s : List Char) : List Char := s.dropWhile isWsChar

/-- `re.sub(pat + r'\s*', '', s)` for a literal pattern: delete every
occurrence of `pat` together with the whitespace that follows it. -/
def reSubRemove (pat : String) : Nat → List Char → List Char
  | 0, s => s
  | _ + 1, [] => []
  | fuel + 1, c :: cs =>
    if pat.data.isPrefixOf (c :: cs) then
      reSubRemove pat fuel (dropWsChars (List.drop pat.length (c :: cs)))
    else
      c :: reSubRemove pat fuel cs

/-- Python `str.strip()`: drop leading and trailing whitespace. -/
def pyStrip (s : String) : String :=
  String.mk (((s.data.dropWhile isWsChar).reverse.dropWhile isWsChar).reverse)

/-- The response cleaning applied in phases 2 and 4: strip, remove
"```json" fences, remove "```" fences, strip again. -/
def cleanClaudeText (s : String) : String :=
  let t := pyStrip s
  let t := String.mk (reSubRemove "```json" (t.data.length + 1) t.data)
  let t := String.mk (reSubRemove "```" (t.data.length + 1) t.data)
  pyStrip t

/-- `phase2_query_planning`: parse the classifier reply into the query
plan.  A reply that is not valid JSON raises (`Except.error`); a valid
JSON document that is not an object raises when the code attaches
`phase2_metadata` / reads plan fields; an object of any shape is
accepted unchanged (plus metadata) — the code performs no field,
flag-type or route validation. -/
def phase2_query_planning (response_text : String) (ticket_id : Option Json)
    (now : String) : Except String Row :=
  match parseJson (cleanClaudeText response_text) with
  | none => Except.error "Claude returned invalid JSON in Phase 2"
  | some (Json.obj kvs) =>
    Except.ok (setKey kvs "phase2_metadata" (Json.obj
      [("timestamp", Json.str now),
       ("model", Json.str CLAUDE_MODEL),
       ("ticket_id", ticket_id.getD Json.null)]))
  | some _ => Except.error "Phase 2 plan is not a JSON object"

/-!
Phase 3, the stage executor (`src/core/engine.py` lines 225-693).  The
warehouse is an oracle: each stage query either raises
(`Except.error`, modelling `pyodbc` exceptions) or yields its
row(s).  Per-stage wall-clock figures are not modelled.
-/

/-- Outcomes the evidence store can produce for one pipeline run. -/
structure SynapseDb where
  connect : Except String Unit
  stage12 : Except String (Option Row)
  stage3 : Except String (Option Row)
  stage4 : Except String (List Row)
  stage5 : Except String (Option Row)

/-- `execute_stage_1_2_basic_account`: mandatory lookup; a query
exception propagates (`raise`), a missing row becomes the empty dict. -/
def execute_stage_1_2_basic_account (db : SynapseDb) (identifiers : Row) :
    Except String Row :=
  match db.stage12 with
  | Except.error e => Except.error e
  | Except.ok (some row) => Except.ok row
  | Except.ok none => Except.ok []

/-- `execute_stage_3_dfrs`: skipped internally when the device does not
support DFRS; an exception or empty result becomes the empty dict and
never propagates. -/
def execute_stage_3_dfrs (db : SynapseDb) (identifiers account_data : Row) : Row :=
  if !(pyTruthy (rget account_data "SupportsDFRS")) then []
  else
    match db.stage3 with
    | Except.error _ => []
    | Except.ok (some row) => row
    | Except.ok none => []

/-- `execute_stage_4_historical_tickets`: an exception becomes the
empty list and never propagates. -/
def execute_stage_4_historical_tickets (db : SynapseDb) (identifiers account_data : Row) :
    List Row :=
  match db.stage4 with
  | Except.error _ => []
  | Except.ok rows => rows

/-- `execute_stage_5_behavioral_analysis`: skipped internally without an
account number; an exception or empty result becomes the empty dict and
never propagates. -/
def execute_stage_5_behavioral_analysis (db : SynapseDb) (identifiers account_data : Row) :
    Row :=
  let account_number := pyOr (rget account_data "AccountNumber") (rget identifiers "AccountNumber")
  if !(pyTruthy account_number) then []
  else
    match db.stage5 with
    | Except.error _ => []
    | Except.ok (some row) => row
    | Except.ok none => []

/-- One entry of `execution_log['stages_executed']` (`time_ms`, a
wall-clock figure, is not modelled). -/
structure StageEntry where
  stage : String
  result : String
deriving DecidableEq

/-- The `execution_log` dict of phase 3. -/
structure ExecutionLog where
  stages_executed : List StageEntry
  stages_skipped : List String
deriving DecidableEq

/-- The `combined_data` dict returned by phase 3 (the timestamp-only
`phase3_metadata` appendix is not modelled). -/
structure CombinedData where
  account_profile : Row
  dfrs_signals : Row
  historical_tickets : List Row
  behavioral_analysis : Row
  query_plan : Row
  execution_log : ExecutionLog

/-- The body of phase 3 after the mandatory lookup produced
`account_data`: stop early on an empty dict, otherwise run each
optional stage iff its plan flag is truthy, recording executed and
skipped stages (`src/core/engine.py` lines 595-687). -/
def phase3_after_lookup (db : SynapseDb) (query_plan identifiers account_data : Row) :
    CombinedData :=
  let e12 : StageEntry :=
    { stage := "Stage 1-2: Basic Account",
      result := if account_data.isEmpty then "no_data" else "success" }
  if account_data.isEmpty then
    { account_profile := account_data, dfrs_signals := [], historical_tickets := [],
      behavioral_analysis := [], query_plan := query_plan,
      execution_log := { stages_executed := [e12], stages_skipped := [] } }
  else
    let s3 := pyTruthy (rget query_plan "execute_stage_3_dfrs")
    let dfrs_data := if s3 then execute_stage_3_dfrs db identifiers account_data else []
    let ex3 : List StageEntry :=
      if s3 then
        [{ stage := "Stage 3: DFRS",
           result := if dfrs_data.isEmpty then "no_data" else "success" }]
      else []
    let sk3 : List String := if s3 then [] else ["Stage 3: DFRS"]
    let s4 := pyTruthy (rget query_plan "execute_stage_4_history")
    let historical_data :=
      if s4 then execute_stage_4_historical_tickets db identifiers account_data else []
    let ex4 : List StageEntry :=
      if s4 then
        [{ stage := "Stage 4: Historical",
           result := toString historical_data.length ++ "_tickets" }]
      else []
    let sk4 : List String := if s4 then [] else ["Stage 4: Historical"]
    let s5 := pyTruthy (rget query_plan "execute_stage_5_behavioral")
    let behavioral_data :=
      if s5 then execute_stage_5_behavioral_analysis db identifiers account_data else []
    let ex5 : List StageEntry :=
      if s5 then
        [{ stage := "Stage 5: Behavioral",
           result := if behavioral_data.isEmpty then "no_data" else "success" }]
      else []
    let sk5 : List String := if s5 then [] else ["Stage 5: Behavioral"]
    { account_profile := account_data, dfrs_signals := dfrs_data,
      historical_tickets := historical_data, behavioral_analysis := behavioral_data,
      query_plan := query_plan,
      execution_log :=
        { stages_executed := [e12] ++ ex3 ++ ex4 ++ ex5,
          stages_skipped := sk3 ++ sk4 ++ sk5 } }

/-- `phase3_dynamic_query_execution` from `src/core/engine.py` lines
549-693: connect, run stage 1-2 unconditionally (a connection failure
or a mandatory-lookup exception propagates), then proceed with
`phase3_after_lookup`. -/
def phase3_dynamic_query_execution (db : SynapseDb) (query_plan : Row) :
    Except String CombinedData :=
  let identifiers :=
    match rget query_plan "identifiers_extracted" with
    | some (Json.obj kvs) => kvs
    | _ => []
  match db.connect with
  | Except.error e => Except.error e
  | Except.ok _ =>
  match execute_stage_1_2_basic_account db identifiers with
  | Except.error e => Except.error e
  | Except.ok account_data =>
    Except.ok (phase3_after_lookup db query_plan identifiers account_data)

/-!
Phase 4 (`phase4_fraud_investigation_enhanced`, lines 706-819), phase 5
(`phase5_update_freshservice`, lines 1138-1169), and the orchestrator
(`run_dynamic_investigation`, lines 1176-1430) of `src/core/engine.py`.
-/

/-- `phase4_fraud_investigation_enhanced`: call the classifier on the
aggregated evidence (the reply text, or the API failure, is the
oracle), clean and parse the reply — an unparsable or non-object reply
raises — and post-process it with `process_investigation_output`. -/
def phase4_fraud_investigation_enhanced (responseText : Except String String)
    (freshservice_data query_plan : Row) (sql_data : CombinedData) (now : String) :
    Except String InvestigationResult :=
  let ticket_id :=
    match rget freshservice_data "ticket_id" with
    | some (Json.str s) => s
    | _ => ""
  let fraud_type := rgetD query_plan "fraud_type" (Json.str "unknown")
  let account_number := rget sql_data.account_profile "AccountNumber"
  match responseText with
  | Except.error e => Except.error e
  | Except.ok txt =>
    match parseJson (cleanClaudeText txt) with
    | none => Except.error "Claude returned invalid JSON in Phase 4"
    | some (Json.obj claude_result) =>
      Except.ok (process_investigation_output claude_result account_number ticket_id fraud_type now)
    | some _ => Except.error "Phase 4 result is not a JSON object"

/-- `phase5_update_freshservice`: dry-run stub that always reports
success. -/
def phase5_update_freshservice (dry_run : Bool) : Row :=
  if dry_run then
    [("success", Json.bool true), ("dry_run", Json.bool true),
     ("ticket_updated", Json.bool false), ("comment_created", Json.bool false)]
  else
    [("success", Json.bool true), ("dry_run", Json.bool false),
     ("note", Json.str "Update logic needed")]

/-- All external outcomes one pipeline run can observe: the ticket
fetch, the two classifier calls, the warehouse, and the final
results-file write. -/
structure PipelineEnv where
  freshservice : Except String Row
  planningText : Except String String
  db : SynapseDb
  investigationText : Except String String
  saveFile : Except String Unit

/-- The top-level `investigation` dict assembled by
`run_dynamic_investigation` (timeline/duration fields are wall-clock
and not modelled; per-phase payloads are kept as status strings). -/
structure Investigation where
  ticket_id : String
  use_analytics : Bool
  dry_run : Bool
  phases : List (String × String)
  success : Bool
  error : Option String

/-- The `combined_sql_data` substitute built inline when analytics is
disabled (`src/core/engine.py` lines 1310-1316; it carries no
execution log). -/
def disabledAnalyticsCombined (query_plan : Row) : CombinedData :=
  { account_profile := [], dfrs_signals := [], historical_tickets := [],
    behavioral_analysis := [], query_plan := query_plan,
    execution_log := { stages_executed := [], stages_skipped := [] } }

/-- `run_dynamic_investigation`: sequence phases 1-5 inside one
catch-all `try`; any phase exception lands in the `except` block, which
stamps `success = False` and `error` onto the partially filled result
and returns it — the orchestrator itself never raises. -/
def run_dynamic_investigation (env : PipelineEnv) (ticket_id : String)
    (use_analytics dry_run : Bool) (now : String) : Investigation :=
  let base : Investigation :=
    { ticket_id := ticket_id, use_analytics := use_analytics, dry_run := dry_run,
      phases := [], success := false, error := none }
  match env.freshservice with
  | Except.error e => { base with success := false, error := some e }
  | Except.ok freshservice_data =>
  let inv1 := { base with phases := base.phases ++ [("phase1", "success")] }
  match env.planningText with
  | Except.error e => { inv1 with success := false, error := some e }
  | Except.ok ptxt =>
  match phase2_query_planning ptxt (rget freshservice_data "ticket_id") now with
  | Except.error e => { inv1 with success := false, error := some e }
  | Except.ok query_plan =>
  let inv2 := { inv1 with phases := inv1.phases ++ [("phase2", "success")] }
  match (if use_analytics then
           (phase3_dynamic_query_execution env.db query_plan).map (fun cd => (cd, "success"))
         else
           Except.ok (disabledAnalyticsCombined query_plan, "skipped")) with
  | Except.error e => { inv2 with success := false, error := some e }
  | Except.ok (combined_sql_data, phase3_status) =>
  let inv3 := { inv2 with phases := inv2.phases ++ [("phase3", phase3_status)] }
  match phase4_fraud_investigation_enhanced env.investigationText freshservice_data
          query_plan combined_sql_data now with
  | Except.error e => { inv3 with success := false, error := some e }
  | Except.ok _investigation_result =>
  let inv4 := { inv3 with phases := inv3.phases ++ [("phase4", "success")] }
  let _update_result := phase5_update_freshservice dry_run
  let inv5 := { inv4 with phases := inv4.phases ++ [("phase5", "success")] }
  let inv6 := { inv5 with success := true }
  match env.saveFile with
  | Except.error e => { inv6 with success := false, error := some e }
  | Except.ok _ => inv6

/-!
Helper lemmas about list-modelled tables.
-/

/-- Searching a list purged of key `t` for key `t` finds nothing. -/
theorem find?_filter_ne_none (l : List CacheRow) (t : String) :
    (l.filter (fun row => !(row.ticket_id == t))).find? (fun row => row.ticket_id == t) = none := by
  rw [List.find?_eq_none]
  intro x hx
  have := List.of_mem_filter hx
  simpa using this

/-- `find?` skips a prefix in which nothing matches. -/
theorem find?_append_of_none {α : Type} (p : α → Bool) (l1 l2 : List α)
    (h : l1.find? p = none) : (l1 ++ l2).find? p = l2.find? p := by
  induction l1 with
  | nil => simp
  | cons a as ih =>
    cases hpa : p a with
    | true => simp [List.find?, hpa] at h
    | false =>
      simp only [List.find?, hpa] at h
      simpa [List.find?, hpa] using ih h

/-- C5: `standardize_phone_number` strips non-digits; a 9-digit result
missing the leading zero gets exactly one `0` prepended; only 9- or
10-digit results are returned, anything else (including empty input)
yields `None`. -/
theorem C5_phone_normalization (s : String) :
    (s = "" → standardize_phone_number s = none) ∧
    (∀ r, standardize_phone_number s = some r → r.length = 9 ∨ r.length = 10) ∧
    (s ≠ "" → (stripNonDigits s).length = 9 → startsWith0 (stripNonDigits s) = false →
      standardize_phone_number s = some ("0" ++ stripNonDigits s)) ∧
    (s ≠ "" → (stripNonDigits s).length = 9 → startsWith0 (stripNonDigits s) = true →
      standardize_phone_number s = some (stripNonDigits s)) ∧
    (s ≠ "" → (stripNonDigits s).length = 10 →
      standardize_phone_number s = some (stripNonDigits s)) ∧
    (s ≠ "" → (stripNonDigits s).length ≠ 9 → (stripNonDigits s).length ≠ 10 →
      standardize_phone_number s = none) := by
  have hzero : ∀ t : String, ("0" ++ t).length = 1 + t.length := by
    intro t
    rw [String.length_append]
    rfl
  refine ⟨?_, ?_, ?_, ?_, ?_, ?_⟩
  · intro h
    simp [standardize_phone_number, h]
  · intro r hr
    by_cases h0 : s = ""
    · simp [standardize_phone_number, h0] at hr
    · rw [show standardize_phone_number s =
            (if ((if (stripNonDigits s).length = 9 ∧ startsWith0 (stripNonDigits s) = false
                  then "0" ++ stripNonDigits s else stripNonDigits s)).length = 10 ∨
                ((if (stripNonDigits s).length = 9 ∧ startsWith0 (stripNonDigits s) = false
                  then "0" ++ stripNonDigits s else stripNonDigits s)).length = 9
             then some (if (stripNonDigits s).length = 9 ∧ startsWith0 (stripNonDigits s) = false
                        then "0" ++ stripNonDigits s else stripNonDigits s)
             else none) from by simp [standardize_phone_number, h0]] at hr
      generalize hq : (if (stripNonDigits s).length = 9 ∧ startsWith0 (stripNonDigits s) = false
                       then "0" ++ stripNonDigits s else stripNonDigits s) = p at hr
      by_cases hl : p.length = 10 ∨ p.length = 9
      · rw [if_pos hl] at hr
        injection hr with h5
        rw [← h5]
        exact hl.symm
      · rw [if_neg hl] at hr
        cases hr
  · intro h1 h2 h3
    have hlen : ("0" ++ stripNonDigits s).length = 10 := by
      rw [hzero, h2]
    simp [standardize_phone_number, h1, h2, h3, hlen]
  · intro h1 h2 h3
    simp [standardize_phone_number, h1, h2, h3]
  · intro h1 h2
    simp [standardize_phone_number, h1, h2]
  · intro h1 h2 h3
    simp [standardize_phone_number, h1, h2, h3]

/-- Witness for C5 at concrete inputs: a formatted 9-digit number gains
its leading zero, a 5-digit number is rejected, and the empty string is
rejected. -/
theorem C5_phone_normalization_witness :
    standardize_phone_number "712-345-678" = some "0712345678" ∧
    standardize_phone_number "12345" = none ∧
    standardize_phone_number "" = none := by
  refine ⟨?_, ?_, ?_⟩
  · have h := (C5_phone_normalization "712-345-678").2.2.1 (by decide) (by decide) (by decide)
    exact h.trans (by decide)
  · exact (C5_phone_normalization "12345").2.2.2.2.2 (by decide) (by decide) (by decide)
  · exact (C5_phone_normalization "").1 rfl

/-- C7: upserting result `A` and then result `B` for the same case id
leaves exactly one cached record for that id — the one whose
verdict-summary columns and serialized payload come from `B`.
`INSERT OR REPLACE` on the `ticket_id` primary key overwrites; it never
appends a second row. -/
theorem C7_upsert_overwrites (tbl : List CacheRow) (t : String) (A B : Row)
    (now1 now2 : String) :
    (save_investigation (save_investigation tbl t A now1) t B now2).filter
        (fun row => row.ticket_id == t) =
      [{ ticket_id := t, date := now2,
         fraud_status := rget B "fraud_status",
         confidence := rget B "confidence",
         data := dumpsJson (Json.obj B) }] := by
  simp only [save_investigation, List.filter_append]
  rw [List.filter_filter]
  have h1 : ∀ l : List CacheRow,
      l.filter (fun row => (row.ticket_id == t) && !(row.ticket_id == t)) = [] := by
    intro l
    apply List.filter_eq_nil_iff.mpr
    intro x _
    cases hx : x.ticket_id == t <;> simp [hx]
  rw [h1]
  simp

/-- C10: after `save_investigation(t, r)`, `get_investigation(t)`
returns exactly the JSON round-trip of `r` (`json.loads` of
`json.dumps(r)`), and for a ticket id with no cached row
`get_investigation` returns `None` instead of raising. -/
theorem C10_cache_roundtrip (tbl : List CacheRow) (t : String) (r : Row) (now : String) :
    get_investigation (save_investigation tbl t r now) t =
      parseJson (dumpsJson (Json.obj r)) ∧
    ((∀ row ∈ tbl, row.ticket_id ≠ t) → get_investigation tbl t = none) := by
  constructor
  · unfold get_investigation save_investigation
    rw [find?_append_of_none _ _ _ (find?_filter_ne_none tbl t)]
    simp [List.find?]
  · intro h
    unfold get_investigation
    rw [List.find?_eq_none.mpr]
    intro x hx
    simpa using h x hx

/-- A concrete cached result used by the C10 witness. -/
def cacheDemoResult : Row :=
  [("ticket_id", Json.str "TKT-1"),
   ("fraud_status", Json.str "Likely fraud"),
   ("confidence", Json.num 92 2),
   ("success", Json.bool true)]

/-- Witness for C10: on the empty cache the lookup yields `None`; after
one save the lookup yields the parse of the serialized payload, which on
this concrete record is the record itself (the round-trip is exact). -/
theorem C10_cache_roundtrip_witness :
    get_investigation [] "TKT-1" = none ∧
    get_investigation (save_investigation [] "TKT-1" cacheDemoResult "2026-01-01") "TKT-1" =
      parseJson (dumpsJson (Json.obj cacheDemoResult)) ∧
    parseJson (dumpsJson (Json.obj cacheDemoResult)) = some (Json.obj cacheDemoResult) := by
  refine ⟨?_, ?_, ?_⟩
  · exact (C10_cache_roundtrip [] "TKT-1" cacheDemoResult "2026-01-01").2 (by simp)
  · exact (C10_cache_roundtrip [] "TKT-1" cacheDemoResult "2026-01-01").1
  · rfl

/-- A deliberately inconsistent classifier output: status "Not fraud"
with a non-null allegation and high confidence. -/
def inconsistentClassifierOutput : Row :=
  [("fraud_status", Json.str "Not fraud"),
   ("confidence", Json.num 90 2),
   ("primary_allegation", Json.str "Resale"),
   ("suspect_type", Json.str "Customer"),
   ("case_outcome", Json.str "No action required"),
   ("public_note", Json.str "Case reviewed.")]

/-- C1 counterexample: feeding the rule engine a "Not fraud" verdict
that carries the allegation "Resale" produces a processed verdict whose
status is still "Not fraud" and whose primary allegation is still the
non-null "Resale" — the rule engine does not force the allegation to
null, contradicting the claimed invariant. -/
theorem C1_counterexample :
    (process_investigation_output inconsistentClassifierOutput none "TKT-1"
        (Json.str "external_scam") "ts").fraud_status = some (Json.str "Not fraud") ∧
    (process_investigation_output inconsistentClassifierOutput none "TKT-1"
        (Json.str "external_scam") "ts").custom_fields.primary_allegation =
      some (Json.str "Resale") ∧
    (some (Json.str "Resale") ≠ (none : Option Json)) := by
  refine ⟨rfl, rfl, ?_⟩
  simp

/-- C1 (amended): `process_investigation_output` passes the classifier
primary allegation and fraud status through unchanged — it applies no
correction to an inconsistent verdict.  The only status-dependent rule
is on the Freshservice custom field `fraud_status`, which keeps the
status exactly when it equals "Likely fraud" and is nulled otherwise. -/
theorem C1_allegation_passthrough (claude_result : Row) (account_number : Option Json)
    (ticket_id : String) (fraud_type : Json) (now : String) :
    (process_investigation_output claude_result account_number ticket_id fraud_type
        now).custom_fields.primary_allegation = rget claude_result "primary_allegation" ∧
    (process_investigation_output claude_result account_number ticket_id fraud_type
        now).fraud_status = rget claude_result "fraud_status" ∧
    (process_investigation_output claude_result account_number ticket_id fraud_type
        now).custom_fields.fraud_status =
      (match rget claude_result "fraud_status" with
       | some (Json.str s) => if s = "Likely fraud" then some (Json.str s) else none
       | _ => none) := by
  exact ⟨rfl, rfl, rfl⟩

/-- A classifier output whose confidence (0.85) is above the configured
high cut point but whose suggested outcome tier is "No action
required". -/
def highConfidenceLowOutcome : Row :=
  [("fraud_status", Json.str "Likely fraud"),
   ("confidence", Json.num 85 2),
   ("primary_allegation", Json.str "Hacking & Tampering"),
   ("case_outcome", Json.str "No action required")]

/-- C2 counterexample: with confidence 0.85 the claimed cut points
demand the "Awaiting field Investigation" tier, but the rule engine
emits the classifier-suggested "No action required" — the outcome tier
tracks the classifier suggestion, not the confidence. -/
theorem C2_counterexample :
    (process_investigation_output highConfidenceLowOutcome none "TKT-2"
        (Json.str "device_tampering") "ts").confidence = Json.num 85 2 ∧
    (process_investigation_output highConfidenceLowOutcome none "TKT-2"
        (Json.str "device_tampering") "ts").custom_fields.case_outcome =
      some (Json.str "No action required") ∧
    ("No action required" ≠ "Awaiting field Investigation") := by
  refine ⟨rfl, rfl, ?_⟩
  decide

/-- C2 (amended): the outcome tier of the processed verdict is the
classifier `case_outcome` passed through unchanged;
`process_investigation_output` never applies the configured confidence
cut points (0.70 / 0.55), which exist only in the `THRESHOLDS`
configuration table and in the prompt text. -/
theorem C2_outcome_passthrough (claude_result : Row) (account_number : Option Json)
    (ticket_id : String) (fraud_type : Json) (now : String) :
    (process_investigation_output claude_result account_number ticket_id fraud_type
        now).custom_fields.case_outcome = rget claude_result "case_outcome" ∧
    THRESHOLDS_confidence_high = 70 / 100 ∧
    THRESHOLDS_confidence_medium = 55 / 100 := by
  exact ⟨rfl, rfl, rfl⟩

/-- A query plan that enables every optional stage. -/
def allStagesPlan : Row :=
  [("fraud_type", Json.str "account_takeover"),
   ("risk_level", Json.str "high"),
   ("investigation_route", Json.str "account_takeover_full"),
   ("identifiers_extracted", Json.obj
     [("IMEI", Json.str "123456789012345"), ("AccountNumber", Json.str "AC123")]),
   ("execute_stage_3_dfrs", Json.bool true),
   ("execute_stage_4_history", Json.bool true),
   ("execute_stage_5_behavioral", Json.bool true)]

/-- A warehouse run in which the mandatory lookup finds no account. -/
def noAccountDb : SynapseDb :=
  { connect := Except.ok (), stage12 := Except.ok none, stage3 := Except.ok none,
    stage4 := Except.ok [], stage5 := Except.ok none }

/-- The combined result phase 3 returns when the mandatory lookup is
empty: structured, non-exceptional, with an empty skip log. -/
def noAccountCombined : CombinedData :=
  { account_profile := [], dfrs_signals := [], historical_tickets := [],
    behavioral_analysis := [], query_plan := allStagesPlan,
    execution_log :=
      { stages_executed := [⟨"Stage 1-2: Basic Account", "no_data"⟩],
        stages_skipped := [] } }

/-- C3 counterexample: when the mandatory lookup returns no row, phase
3 returns without marking stages 3-5 as skipped — the skip log is empty
and no entry carries the reason "no_account_found". -/
theorem C3_counterexample :
    phase3_dynamic_query_execution noAccountDb allStagesPlan = Except.ok noAccountCombined ∧
    noAccountCombined.execution_log.stages_skipped = [] ∧
    "Stage 3: DFRS" ∉ noAccountCombined.execution_log.stages_skipped ∧
    "no_account_found" ∉ (noAccountCombined.execution_log.stages_executed.map
      (fun en => en.result)) := by
  refine ⟨rfl, rfl, ?_, ?_⟩ <;> decide

/-- C3 (amended): if the mandatory basic-account lookup returns no row,
phase 3 stops immediately and returns a structured combined-data result
without raising: stage 1-2 is logged with result "no_data", no further
stage is executed, and the skip log stays empty (no "no_account_found"
reason is recorded anywhere). -/
theorem C3_no_account_short_circuit (db : SynapseDb) (plan : Row)
    (hc : db.connect = Except.ok ()) (h12 : db.stage12 = Except.ok none) :
    phase3_dynamic_query_execution db plan = Except.ok
      { account_profile := [], dfrs_signals := [], historical_tickets := [],
        behavioral_analysis := [], query_plan := plan,
        execution_log :=
          { stages_executed := [⟨"Stage 1-2: Basic Account", "no_data"⟩],
            stages_skipped := [] } } := by
  unfold phase3_dynamic_query_execution execute_stage_1_2_basic_account
  rw [hc, h12]
  rfl

/-- Witness for C3: the short-circuit theorem applied to the concrete
no-account warehouse and the all-stages plan. -/
theorem C3_no_account_short_circuit_witness :
    phase3_dynamic_query_execution noAccountDb allStagesPlan = Except.ok
      { account_profile := [], dfrs_signals := [], historical_tickets := [],
        behavioral_analysis := [], query_plan := allStagesPlan,
        execution_log :=
          { stages_executed := [⟨"Stage 1-2: Basic Account", "no_data"⟩],
            stages_skipped := [] } } :=
  C3_no_account_short_circuit noAccountDb allStagesPlan rfl rfl

/-- An account row the mandatory lookup can return. -/
def foundAccountRow : Row :=
  [("AccountNumber", Json.str "AC123"), ("LoanID", Json.str "L1"),
   ("IMEI", Json.str "123456789012345"), ("DeviceID", Json.str "D1"),
   ("BrandModel", Json.str "M-KOPA X2"), ("SupportsDFRS", Json.num 1 0)]

/-- A behavioral-analysis row stage 5 can return. -/
def behavioralRow : Row :=
  [("AccountNumber", Json.str "AC123"), ("ResetPinFromNewDevice", Json.num 1 0)]

/-- A DFRS row stage 3 can return. -/
def dfrsSignalsRow : Row :=
  [("FraudScore", Json.num 8 1), ("HighestTamperScore", Json.num 95 2)]

/-- A warehouse run in which every stage succeeds and the account is
found. -/
def foundAccountDb : SynapseDb :=
  { connect := Except.ok (), stage12 := Except.ok (some foundAccountRow),
    stage3 := Except.ok (some dfrsSignalsRow), stage4 := Except.ok [],
    stage5 := Except.ok (some behavioralRow) }

/-- A plan whose fraud-type is "external_scam" but whose stage-5 flag
is set. -/
def externalScamStage5Plan : Row :=
  [("fraud_type", Json.str "external_scam"),
   ("investigation_route", Json.str "external_scam_quick"),
   ("identifiers_extracted", Json.obj [("AccountNumber", Json.str "AC123")]),
   ("execute_stage_3_dfrs", Json.bool false),
   ("execute_stage_4_history", Json.bool true),
   ("execute_stage_5_behavioral", Json.bool true)]

/-- C4 counterexample: on a plan with fraud-type "external_scam" whose
`execute_stage_5_behavioral` flag is set, the executor does run the
expensive stage 5 — the executor consults only the flag, never the
fraud-type. -/
theorem C4_counterexample :
    rget externalScamStage5Plan "fraud_type" = some (Json.str "external_scam") ∧
    phase3_dynamic_query_execution foundAccountDb externalScamStage5Plan = Except.ok
      { account_profile := foundAccountRow, dfrs_signals := [], historical_tickets := [],
        behavioral_analysis := behavioralRow, query_plan := externalScamStage5Plan,
        execution_log :=
          { stages_executed :=
              [⟨"Stage 1-2: Basic Account", "success"⟩,
               ⟨"Stage 4: Historical", "0_tickets"⟩,
               ⟨"Stage 5: Behavioral", "success"⟩],
            stages_skipped := ["Stage 3: DFRS"] } } ∧
    (⟨"Stage 5: Behavioral", "success"⟩ : StageEntry) ∈
      [(⟨"Stage 1-2: Basic Account", "success"⟩ : StageEntry),
       ⟨"Stage 4: Historical", "0_tickets"⟩, ⟨"Stage 5: Behavioral", "success"⟩] := by
  refine ⟨rfl, rfl, ?_⟩
  decide

/-- C4 (amended): phase 3 runs the basic account lookup for every plan
— its log entry always heads the executed-stages list — while stage 5
runs exactly when the plan flag `execute_stage_5_behavioral` is truthy,
independently of the plan fraud-type; in particular an "external_scam"
plan with the flag set does execute stage 5. -/
theorem C4_stage1_always_stage5_by_flag (db : SynapseDb) (plan : Row) (acct : Row)
    (hc : db.connect = Except.ok ()) (h12 : db.stage12 = Except.ok (some acct)) :
    ∃ cd, phase3_dynamic_query_execution db plan = Except.ok cd ∧
      cd.execution_log.stages_executed.head? = some
        ⟨"Stage 1-2: Basic Account", if acct.isEmpty then "no_data" else "success"⟩ ∧
      (acct.isEmpty = false →
        (cd.execution_log.stages_executed.any
            (fun en => en.stage == "Stage 5: Behavioral")) =
          pyTruthy (rget plan "execute_stage_5_behavioral")) := by
  unfold phase3_dynamic_query_execution execute_stage_1_2_basic_account
  rw [hc, h12]
  refine ⟨_, rfl, ?_, ?_⟩
  · by_cases he : acct.isEmpty = true <;> simp [phase3_after_lookup, he]
  · intro hne
    cases h3 : pyTruthy (rget plan "execute_stage_3_dfrs") <;>
      cases h4 : pyTruthy (rget plan "execute_stage_4_history") <;>
      cases h5 : pyTruthy (rget plan "execute_stage_5_behavioral") <;>
      simp [phase3_after_lookup, hne, h3, h4, h5]

/-- Witness for C4: the amended theorem applied to the concrete
external-scam plan and the found-account warehouse. -/
theorem C4_stage1_always_stage5_by_flag_witness :
    ∃ cd, phase3_dynamic_query_execution foundAccountDb externalScamStage5Plan =
        Except.ok cd ∧
      cd.execution_log.stages_executed.head? = some
        ⟨"Stage 1-2: Basic Account",
         if foundAccountRow.isEmpty then "no_data" else "success"⟩ ∧
      (foundAccountRow.isEmpty = false →
        (cd.execution_log.stages_executed.any
            (fun en => en.stage == "Stage 5: Behavioral")) =
          pyTruthy (rget externalScamStage5Plan "execute_stage_5_behavioral")) :=
  C4_stage1_always_stage5_by_flag foundAccountDb externalScamStage5Plan foundAccountRow rfl rfl

/-- A warehouse run in which the account is found but the stage-4 query
raises. -/
def stage4FailureDb : SynapseDb :=
  { connect := Except.ok (), stage12 := Except.ok (some foundAccountRow),
    stage3 := Except.ok (some dfrsSignalsRow),
    stage4 := Except.error "QueryError: warehouse timeout",
    stage5 := Except.ok (some behavioralRow) }

/-- C6 counterexample: when the stage-4 query raises, the failure is
swallowed and the pipeline continues to stage 5, but the recorded
stage-4 entry reads "0_tickets" — a status that is neither "failed" nor
"no_data". -/
theorem C6_counterexample :
    phase3_dynamic_query_execution stage4FailureDb allStagesPlan = Except.ok
      { account_profile := foundAccountRow, dfrs_signals := dfrsSignalsRow,
        historical_tickets := [], behavioral_analysis := behavioralRow,
        query_plan := allStagesPlan,
        execution_log :=
          { stages_executed :=
              [⟨"Stage 1-2: Basic Account", "success"⟩,
               ⟨"Stage 3: DFRS", "success"⟩,
               ⟨"Stage 4: Historical", "0_tickets"⟩,
               ⟨"Stage 5: Behavioral", "success"⟩],
            stages_skipped := [] } } ∧
    ("0_tickets" ≠ "failed") ∧ ("0_tickets" ≠ "no_data") := by
  refine ⟨rfl, ?_, ?_⟩ <;> decide

/-- C6 (amended): with the mandatory lookup succeeding, phase 3 always
returns a structured result, whatever the optional stages do, and
execution continues with the remaining stages.  A stage-3 or stage-5
exception, and equally an empty query result, is recorded as a
"no_data" entry with an empty payload (the status "failed" is never
recorded); a stage-4 exception, and equally an empty query result, is
recorded as a "0_tickets" entry with an empty list. -/
theorem C6_optional_stage_isolation (db : SynapseDb) (plan : Row) (acct : Row)
    (hc : db.connect = Except.ok ()) (h12 : db.stage12 = Except.ok (some acct))
    (hne : acct.isEmpty = false) :
    ∃ cd, phase3_dynamic_query_execution db plan = Except.ok cd ∧
      (pyTruthy (rget plan "execute_stage_3_dfrs") = true →
        ∃ r, (⟨"Stage 3: DFRS", r⟩ : StageEntry) ∈ cd.execution_log.stages_executed ∧
          (r = "no_data" ∨ r = "success") ∧
          (∀ e, db.stage3 = Except.error e → r = "no_data" ∧ cd.dfrs_signals = []) ∧
          (db.stage3 = Except.ok none → r = "no_data" ∧ cd.dfrs_signals = [])) ∧
      (pyTruthy (rget plan "execute_stage_4_history") = true →
        ∃ n, (⟨"Stage 4: Historical", toString n ++ "_tickets"⟩ : StageEntry) ∈
            cd.execution_log.stages_executed ∧
          (∀ e, db.stage4 = Except.error e → n = 0 ∧ cd.historical_tickets = []) ∧
          (db.stage4 = Except.ok [] → n = 0 ∧ cd.historical_tickets = [])) ∧
      (pyTruthy (rget plan "execute_stage_5_behavioral") = true →
        ∃ r, (⟨"Stage 5: Behavioral", r⟩ : StageEntry) ∈ cd.execution_log.stages_executed ∧
          (r = "no_data" ∨ r = "success") ∧
          (∀ e, db.stage5 = Except.error e → r = "no_data" ∧ cd.behavioral_analysis = []) ∧
          (db.stage5 = Except.ok none → r = "no_data" ∧ cd.behavioral_analysis = [])) := by
  unfold phase3_dynamic_query_execution execute_stage_1_2_basic_account
  rw [hc, h12]
  set idents := (match rget plan "identifiers_extracted" with
    | some (Json.obj kvs) => kvs
    | _ => ([] : Row)) with hid
  refine ⟨_, rfl, ?_, ?_, ?_⟩
  · intro h3
    refine ⟨if (execute_stage_3_dfrs db idents acct).isEmpty then "no_data" else "success",
      ?_, ?_, ?_, ?_⟩
    · simp [phase3_after_lookup, hne, h3]
      rw [h3]
      simp
    · by_cases hd : (execute_stage_3_dfrs db idents acct).isEmpty = true <;> simp [hd]
    · intro e he
      have hempty : execute_stage_3_dfrs db idents acct = [] := by
        unfold execute_stage_3_dfrs
        rw [he]
        by_cases ht : pyTruthy (rget acct "SupportsDFRS") = true <;> simp [ht]
      constructor
      · simp [hempty]
      · simp [phase3_after_lookup, hne, h3, hempty]
    · intro he
      have hempty : execute_stage_3_dfrs db idents acct = [] := by
        unfold execute_stage_3_dfrs
        rw [he]
        by_cases ht : pyTruthy (rget acct "SupportsDFRS") = true <;> simp [ht]
      constructor
      · simp [hempty]
      · simp [phase3_after_lookup, hne, h3, hempty]
  · intro h4
    refine ⟨(execute_stage_4_historical_tickets db idents acct).length, ?_, ?_, ?_⟩
    · simp [phase3_after_lookup, hne, h4]
    · intro e he
      have hempty : execute_stage_4_historical_tickets db idents acct = [] := by
        unfold execute_stage_4_historical_tickets
        rw [he]
      constructor
      · simp [hempty]
      · simp [phase3_after_lookup, hne, h4, hempty]
    · intro he
      have hempty : execute_stage_4_historical_tickets db idents acct = [] := by
        unfold execute_stage_4_historical_tickets
        rw [he]
      constructor
      · simp [hempty]
      · simp [phase3_after_lookup, hne, h4, hempty]
  · intro h5
    refine ⟨if (execute_stage_5_behavioral_analysis db idents acct).isEmpty then "no_data"
        else "success", ?_, ?_, ?_, ?_⟩
    · simp [phase3_after_lookup, hne, h5]
      rw [h5]
      simp
    · by_cases hb : (execute_stage_5_behavioral_analysis db idents acct).isEmpty = true <;>
        simp [hb]
    · intro e he
      have hempty : execute_stage_5_behavioral_analysis db idents acct = [] := by
        unfold execute_stage_5_behavioral_analysis
        rw [he]
        by_cases ht : pyTruthy (pyOr (rget acct "AccountNumber")
            (rget idents "AccountNumber")) = true <;> simp [ht]
      constructor
      · simp [hempty]
      · simp [phase3_after_lookup, hne, h5, hempty]
    · intro he
      have hempty : execute_stage_5_behavioral_analysis db idents acct = [] := by
        unfold execute_stage_5_behavioral_analysis
        rw [he]
        by_cases ht : pyTruthy (pyOr (rget acct "AccountNumber")
            (rget idents "AccountNumber")) = true <;> simp [ht]
      constructor
      · simp [hempty]
      · simp [phase3_after_lookup, hne, h5, hempty]

/-- A warehouse run in which the account is found, the stage-3 and
stage-4 queries raise, and the stage-5 query returns no row (an empty
query result). -/
def mixedFailureDb : SynapseDb :=
  { connect := Except.ok (), stage12 := Except.ok (some foundAccountRow),
    stage3 := Except.error "ConnectionError: DFRS feed unavailable",
    stage4 := Except.error "QueryError: warehouse timeout",
    stage5 := Except.ok none }

/-- Witness for C6: the isolation theorem applied to the concrete
warehouse whose stage-3 and stage-4 queries raise and whose stage-5
query yields an empty result; evaluating that run shows stage 3
recorded "no_data", stage 4 recorded "0_tickets", stage 5 (empty
result) recorded "no_data", and execution reaching every stage. -/
theorem C6_optional_stage_isolation_witness :
    (∃ cd, phase3_dynamic_query_execution mixedFailureDb allStagesPlan = Except.ok cd ∧
      (pyTruthy (rget allStagesPlan "execute_stage_3_dfrs") = true →
        ∃ r, (⟨"Stage 3: DFRS", r⟩ : StageEntry) ∈ cd.execution_log.stages_executed ∧
          (r = "no_data" ∨ r = "success") ∧
          (∀ e, mixedFailureDb.stage3 = Except.error e → r = "no_data" ∧
            cd.dfrs_signals = []) ∧
          (mixedFailureDb.stage3 = Except.ok none → r = "no_data" ∧
            cd.dfrs_signals = [])) ∧
      (pyTruthy (rget allStagesPlan "execute_stage_4_history") = true →
        ∃ n, (⟨"Stage 4: Historical", toString n ++ "_tickets"⟩ : StageEntry) ∈
            cd.execution_log.stages_executed ∧
          (∀ e, mixedFailureDb.stage4 = Except.error e → n = 0 ∧
            cd.historical_tickets = []) ∧
          (mixedFailureDb.stage4 = Except.ok [] → n = 0 ∧
            cd.historical_tickets = [])) ∧
      (pyTruthy (rget allStagesPlan "execute_stage_5_behavioral") = true →
        ∃ r, (⟨"Stage 5: Behavioral", r⟩ : StageEntry) ∈ cd.execution_log.stages_executed ∧
          (r = "no_data" ∨ r = "success") ∧
          (∀ e, mixedFailureDb.stage5 = Except.error e → r = "no_data" ∧
            cd.behavioral_analysis = []) ∧
          (mixedFailureDb.stage5 = Except.ok none → r = "no_data" ∧
            cd.behavioral_analysis = []))) ∧
    phase3_dynamic_query_execution mixedFailureDb allStagesPlan = Except.ok
      { account_profile := foundAccountRow, dfrs_signals := [], historical_tickets := [],
        behavioral_analysis := [], query_plan := allStagesPlan,
        execution_log :=
          { stages_executed :=
              [⟨"Stage 1-2: Basic Account", "success"⟩,
               ⟨"Stage 3: DFRS", "no_data"⟩,
               ⟨"Stage 4: Historical", "0_tickets"⟩,
               ⟨"Stage 5: Behavioral", "no_data"⟩],
            stages_skipped := [] } } :=
  ⟨C6_optional_stage_isolation mixedFailureDb allStagesPlan foundAccountRow rfl rfl rfl, rfl⟩

/-- A classifier reply that is a syntactically valid JSON object but is
structurally invalid as a plan: every required field is missing and the
route label is outside the known enumeration. -/
def invalidShapePlanReply : String :=
  "\x7b\"investigation_route\": \"bogus_route\"\x7d"

/-- C8 counterexample: phase 2 accepts a structurally invalid plan —
no required fields, no boolean execute-flags, a route label outside
`INVESTIGATION_ROUTES` — and returns it (plus metadata) instead of
failing: no shape validation is performed. -/
theorem C8_counterexample :
    phase2_query_planning invalidShapePlanReply (some (Json.str "T1")) "ts" =
      Except.ok
        [("investigation_route", Json.str "bogus_route"),
         ("phase2_metadata", Json.obj
           [("timestamp", Json.str "ts"),
            ("model", Json.str CLAUDE_MODEL),
            ("ticket_id", Json.str "T1")])] ∧
    "bogus_route" ∉ INVESTIGATION_ROUTES ∧
    rget [("investigation_route", Json.str "bogus_route")] "fraud_type" = none ∧
    rget [("investigation_route", Json.str "bogus_route")] "execute_stage_3_dfrs" = none := by
  refine ⟨rfl, by decide, rfl, rfl⟩

/-- C8 (amended): phase 2 fails explicitly — raising rather than
substituting a default plan — exactly when the cleaned classifier reply
does not parse as JSON; any reply parsing to a JSON object is returned
as the plan unchanged (metadata appended), with no required-field,
flag-type or route-label validation. -/
theorem C8_parse_only_validation (response : String) (ticket_id : Option Json)
    (now : String) :
    (parseJson (cleanClaudeText response) = none →
      phase2_query_planning response ticket_id now =
        Except.error "Claude returned invalid JSON in Phase 2") ∧
    (∀ kvs, parseJson (cleanClaudeText response) = some (Json.obj kvs) →
      phase2_query_planning response ticket_id now =
        Except.ok (setKey kvs "phase2_metadata" (Json.obj
          [("timestamp", Json.str now),
           ("model", Json.str CLAUDE_MODEL),
           ("ticket_id", ticket_id.getD Json.null)]))) := by
  constructor
  · intro h
    unfold phase2_query_planning
    rw [h]
  · intro kvs h
    unfold phase2_query_planning
    rw [h]

/-- Witness for C8: an unparsable reply makes phase 2 fail explicitly,
and a well-formed object reply is passed through with metadata. -/
theorem C8_parse_only_validation_witness :
    phase2_query_planning "no json here" none "ts" =
      Except.error "Claude returned invalid JSON in Phase 2" ∧
    phase2_query_planning "\x7b\"fraud_type\": \"external_scam\"\x7d" none "ts" =
      Except.ok (setKey [("fraud_type", Json.str "external_scam")] "phase2_metadata"
        (Json.obj [("timestamp", Json.str "ts"),
                   ("model", Json.str CLAUDE_MODEL),
                   ("ticket_id", Json.null)])) := by
  constructor
  · exact (C8_parse_only_validation "no json here" none "ts").1 (by rfl)
  · exact (C8_parse_only_validation "\x7b\"fraud_type\": \"external_scam\"\x7d" none "ts").2
      [("fraud_type", Json.str "external_scam")] (by rfl)

/-- C9: for every combination of phase outcomes the orchestrator
returns a structured result — it never re-raises past its top-level
`try`: the ticket id is preserved, a non-success result always carries
an error, an error-free result is a success, and a failing fetch (or a
failing final file write) yields `success = False` with the error
recorded. -/
theorem C9_orchestrator_never_raises (env : PipelineEnv) (ticket_id : String)
    (use_analytics dry_run : Bool) (now : String) :
    (run_dynamic_investigation env ticket_id use_analytics dry_run now).ticket_id =
      ticket_id ∧
    ((run_dynamic_investigation env ticket_id use_analytics dry_run now).success = false →
      (run_dynamic_investigation env ticket_id use_analytics dry_run now).error.isSome =
        true) ∧
    ((run_dynamic_investigation env ticket_id use_analytics dry_run now).error = none →
      (run_dynamic_investigation env ticket_id use_analytics dry_run now).success = true) ∧
    (∀ e, env.freshservice = Except.error e →
      (run_dynamic_investigation env ticket_id use_analytics dry_run now).success = false ∧
      (run_dynamic_investigation env ticket_id use_analytics dry_run now).error = some e) ∧
    (∀ e, env.saveFile = Except.error e →
      (run_dynamic_investigation env ticket_id use_analytics dry_run now).success = false ∧
      (run_dynamic_investigation env ticket_id use_analytics dry_run now).error.isSome =
        true) := by
  unfold run_dynamic_investigation
  cases h1 : env.freshservice with
  | error e1 => simp [h1]
  | ok freshservice_data =>
    cases h2 : env.planningText with
    | error e2 => simp [h1, h2]
    | ok ptxt =>
      cases h3 : phase2_query_planning ptxt (rget freshservice_data "ticket_id") now with
      | error e3 => simp [h1, h2, h3]
      | ok query_plan =>
        cases hua : use_analytics with
        | false =>
          cases h5 : phase4_fraud_investigation_enhanced env.investigationText
              freshservice_data query_plan (disabledAnalyticsCombined query_plan) now with
          | error e5 => simp [h1, h2, h3, hua, h5]
          | ok ir =>
            cases h6 : env.saveFile with
            | error e6 => simp [h1, h2, h3, hua, h5, h6]
            | ok u => simp [h1, h2, h3, hua, h5, h6]
        | true =>
          cases h4 : phase3_dynamic_query_execution env.db query_plan with
          | error e4 => simp [h1, h2, h3, hua, h4, Except.map]
          | ok cd =>
            cases h5 : phase4_fraud_investigation_enhanced env.investigationText
                freshservice_data query_plan cd now with
            | error e5 => simp [h1, h2, h3, hua, h4, h5, Except.map]
            | ok ir =>
              cases h6 : env.saveFile with
              | error e6 => simp [h1, h2, h3, hua, h4, h5, h6, Except.map]
              | ok u => simp [h1, h2, h3, hua, h4, h5, h6, Except.map]

/-- A planning reply that parses to a complete plan. -/
def planReplyText : String :=
  "\x7b\"fraud_type\": \"account_takeover\", \"risk_level\": \"high\", " ++
  "\"investigation_route\": \"account_takeover_full\", " ++
  "\"identifiers_extracted\": \x7b\"AccountNumber\": \"AC123\"\x7d, " ++
  "\"execute_stage_3_dfrs\": true, \"execute_stage_4_history\": true, " ++
  "\"execute_stage_5_behavioral\": true, \"confidence\": 0.9\x7d"

/-- An investigation reply that parses to a complete verdict. -/
def verdictReplyText : String :=
  "\x7b\"fraud_status\": \"Likely fraud\", \"confidence\": 0.92, " ++
  "\"primary_allegation\": \"Identity Theft\", \"suspect_type\": \"External to M-kopa\", " ++
  "\"suspect_number\": \"712345678\", " ++
  "\"case_outcome\": \"Awaiting field Investigation\", \"public_note\": \"Reviewed.\"\x7d"

/-- A pipeline environment in which every external call succeeds. -/
def envAllOk : PipelineEnv :=
  { freshservice := Except.ok [("ticket_id", Json.str "T9"), ("basic_data", Json.obj [])],
    planningText := Except.ok planReplyText,
    db := foundAccountDb,
    investigationText := Except.ok verdictReplyText,
    saveFile := Except.ok () }

/-- The same environment with a failing ticket fetch. -/
def envFetchFail : PipelineEnv :=
  { envAllOk with freshservice := Except.error "NotFound" }

set_option maxRecDepth 100000 in
/-- Witness for C9: the fully successful run ends with
`success = True` and no error; the run whose fetch fails ends with
`success = False` and the error recorded — in both cases a structured
result is returned. -/
theorem C9_orchestrator_never_raises_witness :
    (run_dynamic_investigation envAllOk "T9" true true "ts").error = none ∧
    (run_dynamic_investigation envAllOk "T9" true true "ts").success = true ∧
    (run_dynamic_investigation envFetchFail "T9" true true "ts").success = false ∧
    (run_dynamic_investigation envFetchFail "T9" true true "ts").error = some "NotFound" := by
  refine ⟨rfl, ?_, ?_, ?_⟩
  · exact (C9_orchestrator_never_raises envAllOk "T9" true true "ts").2.2.1 rfl
  · exact ((C9_orchestrator_never_raises envFetchFail "T9" true true "ts").2.2.2.1
      "NotFound" rfl).1
  · exact ((C9_orchestrator_never_raises envFetchFail "T9" true true "ts").2.2.2.1
      "NotFound" rfl).2
